import Mathlib

/-!
Shallow embedding of the document state controller (the Doc class of
automerge-py, file src/automerge/doc.py) together with proofs of the
reconciliation and transaction properties the design notes state.

External collaborators (the CRDT merge function over diff trees, the
recording Context, MapProxy, the Map datatype and the backend object)
are outside the embedded file; they enter as opaque parameters:
merge for the canonical-merge collaborator, truthy for Python
truthiness of a document state, backendFn for the integrated backend,
and the pair (body, ops) for the state effect and the recorded
operation list of one change block.

Python attribute semantics: Doc init creates local_bin_changes only
when a backend is present, and local_changes, in_flight_local_changes,
optimistic_root_obj only when it is absent.  The Lean structure carries
all fields; an access the Python object would not have is embedded as
an attributeError result, mirroring the interpreter.  Operations return
the document paired with an optional error; because Python mutates the
object in place, the document returned alongside an error is the state
at the moment the exception is raised.
-/

namespace Automerge

/-- Python exceptions doc.py can raise, with the data they carry. -/
inductive Err where
  | outOfOrder (expected got : Nat)
  | attributeError (attr : String)
  | indexError
  | keyError (key : String)
  | cannotAssign (key val : String)
  | cannotDelete (key : String)
deriving DecidableEq, Repr

/-- Message strings of the exceptions, as formatted in doc.py
(lines 68-70, 107-109, 118-120). -/
def Err.message : Err → String
  | .outOfOrder e g =>
      "Out of order patch. Expected seq " ++ toString e ++ ", received: " ++ toString g
  | .attributeError a => "AttributeError: " ++ a
  | .indexError => "IndexError: deque index out of range"
  | .keyError k => "KeyError: " ++ k
  | .cannotAssign k v =>
      "Cannot assign directly on a document. Use a change block. (Tried assigning "
        ++ k ++ " to " ++ v ++ ")"
  | .cannotDelete k =>
      "Cannot delete directly on a document. Use a change block. (Tried deleting "
        ++ k ++ ")"

/-- Wire shape of a change produced by one transaction commit
(doc.py lines 149-158): deps is always empty, time is the placeholder
12345, message is empty. Op is the type of recorded operations. -/
structure Change (Op : Type) where
  actor : String
  seq : Nat
  startOp : Nat
  deps : List Nat
  ops : List Op
  time : Nat
  message : String
deriving DecidableEq, Repr

/-- Wire shape of a patch consumed by apply_patch (doc.py lines 63-90):
actorId and seq are optional dictionary keys, maxOp, clock and diffs
are always read. The clock dictionary is embedded as an association
list. Diffs is the opaque diff-tree type. -/
structure Patch (Diffs : Type) where
  actorId : Option String
  seq : Option Nat
  maxOp : Nat
  clock : List (String × Nat)
  diffs : Diffs
deriving DecidableEq, Repr

/-- State of one Doc controller (doc.py lines 14-57). St is the document
state type (the external Map datatype), Op the operation type recorded
by the context, Bin the encoded-change type an integrated backend
returns. The backend field records the presence of an integrated
backend object (assumed truthy when present). Python creates
local_bin_changes only when a backend is present, and local_changes,
in_flight_local_changes and optimistic_root_obj only when it is absent;
here every field is carried (the mode-absent ones stay at their initial
empty values) and an access the Python object would not have surfaces
as an attributeError in the operations below. -/
structure Doc (St Op Bin : Type) where
  backend : Bool
  local_bin_changes : List Bin
  local_changes : List (Change Op)
  in_flight_local_changes : List Nat
  optimistic_root_obj : Option St
  actor_id : String
  seq : Nat
  max_op : Nat
  root_obj : St
deriving DecidableEq, Repr

variable {St Op Bin Diffs : Type}

/-- Lookup of an actor in a patch clock: Python dict membership plus
indexing, doc.py lines 83-84. -/
def clockLookup (clock : List (String × Nat)) (a : String) : Option Nat :=
  match clock with
  | [] => none
  | (k, v) :: rest => if k = a then some v else clockLookup rest a

/-- Lines 77-80 of doc.py: adopt the patch maxOp when the optimistic
fork is absent (the controller is caught up), otherwise keep max_op. -/
def bump_max_op (d : Doc St Op Bin) (p : Patch Diffs) : Doc St Op Bin :=
  if d.optimistic_root_obj.isNone then { d with max_op := p.maxOp } else d

/-- Lines 82-86 of doc.py: raise seq to the clock entry for this actor
when that entry exists and is strictly greater. -/
def bump_seq (d : Doc St Op Bin) (p : Patch Diffs) : Doc St Op Bin :=
  match clockLookup p.clock d.actor_id with
  | some cs => if d.seq < cs then { d with seq := cs } else d
  | none => d

/-- Successful outcome of lines 76-90 of doc.py: max_op adoption, seq
raise, then the diff merge replacing canonical state. -/
def tail_result (merge : St → Diffs → St) (d : Doc St Op Bin) (p : Patch Diffs) :
    Doc St Op Bin :=
  { bump_seq (bump_max_op d p) p with
      root_obj := merge (bump_seq (bump_max_op d p) p).root_obj p.diffs }

/-- Lines 76-90 of doc.py, the part of apply_patch after the
local-echo step. Reading optimistic_root_obj on an integrated-mode
controller is an AttributeError, since Doc init never created that
attribute when a backend was passed (lines 36-50). -/
def apply_patch_tail (merge : St → Diffs → St) (d : Doc St Op Bin) (p : Patch Diffs) :
    Doc St Op Bin × Option Err :=
  if d.backend then (d, some (.attributeError "optimistic_root_obj"))
  else (tail_result merge d p, none)

/-- Lines 71-74 of doc.py: pop the queue head (rest is the remaining
queue) and, when the queue thereby drains, discard the fork. -/
def pop_and_maybe_retire (d : Doc St Op Bin) (rest : List Nat) : Doc St Op Bin :=
  if rest.isEmpty then
    { d with in_flight_local_changes := rest, optimistic_root_obj := none }
  else
    { d with in_flight_local_changes := rest }

/-- Doc.apply_patch, doc.py lines 63-90. On an integrated-mode
controller the attribute reads of line 66 and line 77 raise
AttributeError; reading the head of an empty deque raises IndexError;
a patch that matched on actorId but carries no seq key raises KeyError;
a seq different from the queue head raises the out-of-order exception
of lines 68-70, before anything is mutated. -/
def apply_patch (merge : St → Diffs → St) (d : Doc St Op Bin) (p : Patch Diffs) :
    Doc St Op Bin × Option Err :=
  if p.actorId = some d.actor_id then
    if d.backend then (d, some (.attributeError "in_flight_local_changes"))
    else
      match d.in_flight_local_changes with
      | [] => (d, some .indexError)
      | expected :: rest =>
        match p.seq with
        | none => (d, some (.keyError "seq"))
        | some s =>
          if s = expected then apply_patch_tail merge (pop_and_maybe_retire d rest) p
          else (d, some (.outOfOrder expected s))
  else apply_patch_tail merge d p

/-- Sequencing of fallible steps on the controller: a raised exception
stops the run with the state at the raise, otherwise the next step
runs on the updated state. -/
def andThen (r : Doc St Op Bin × Option Err)
    (f : Doc St Op Bin → Doc St Op Bin × Option Err) : Doc St Op Bin × Option Err :=
  match r with
  | (d, none) => f d
  | (d, some e) => (d, some e)

/-- Sequential application of a list of patches; Python raising an
exception stops the sequence with the state at the raise. -/
def apply_patches (merge : St → Diffs → St) :
    List (Patch Diffs) → Doc St Op Bin → Doc St Op Bin × Option Err
  | [], d => (d, none)
  | p :: ps, d => andThen (apply_patch merge d p) (apply_patches merge ps)

/-- Doc.get_active_root_obj, doc.py lines 98-101: with no integrated
backend and a truthy fork, the fork is the active view, otherwise
canonical state is. Key lookup, iteration and length (lines 103-115)
all delegate to this view. -/
def get_active_root_obj (truthy : St → Bool) (d : Doc St Op Bin) : St :=
  if !d.backend then
    match d.optimistic_root_obj with
    | some f => if truthy f then f else d.root_obj
    | none => d.root_obj
  else d.root_obj

/-- Doc setitem, doc.py lines 117-120: direct assignment on a document
always raises, naming the key and the value, before touching anything.
Keys and values are embedded by their string representations. -/
def setitem (d : Doc St Op Bin) (key val : String) : Doc St Op Bin × Option Err :=
  (d, some (.cannotAssign key val))

/-- Doc delitem, doc.py lines 106-109: direct deletion on a document
always raises, naming the key, before touching anything. -/
def delitem (d : Doc St Op Bin) (key : String) : Doc St Op Bin × Option Err :=
  (d, some (.cannotDelete key))

/-- Doc enter, doc.py lines 122-145, the state effect: integrated mode
leaves the document untouched (the canonical root is the active view);
split mode creates the optimistic fork as a copy of canonical state
when the attribute is falsy (Python truthiness: absent, or present but
an empty, falsy Map). -/
def doc_enter (truthy : St → Bool) (d : Doc St Op Bin) : Doc St Op Bin :=
  if d.backend then d
  else
    match d.optimistic_root_obj with
    | some f =>
      if truthy f then d else { d with optimistic_root_obj := some d.root_obj }
    | none => { d with optimistic_root_obj := some d.root_obj }

/-- Effect of the change-block body on the active object: the recording
context of doc.py line 144 wraps the fork in split mode and the
canonical root in integrated mode, and the proxies mutate that object
in place. The body function is the accumulated in-place effect. -/
def apply_body (body : St → St) (d : Doc St Op Bin) : Doc St Op Bin :=
  if d.backend then { d with root_obj := body d.root_obj }
  else { d with optimistic_root_obj := d.optimistic_root_obj.map body }

/-- Doc exit, doc.py lines 147-169. The exception-information arguments
are ignored by the source, so they are one ignored parameter here. ops
is the operation list the recording context collected. The change is
built with the incremented seq and startOp = max_op + 1, then max_op
advances by the op count; an integrated backend is called synchronously
and its patch applied (which raises, see apply_patch, before the
encoded change is appended); split mode appends the change to the
outbox and its seq to the in-flight queue. -/
def doc_exit (backendFn : Change Op → Patch Diffs × Bin) (merge : St → Diffs → St)
    (_excInfo : Option String) (d : Doc St Op Bin) (ops : List Op) :
    Doc St Op Bin × Option Err :=
  let change : Change Op :=
    { actor := d.actor_id, seq := d.seq + 1, startOp := d.max_op + 1, deps := [],
      ops := ops, time := 12345, message := "" }
  let d1 : Doc St Op Bin := { d with seq := d.seq + 1, max_op := d.max_op + ops.length }
  if d1.backend then
    let pb := backendFn change
    match apply_patch merge d1 pb.1 with
    | (d2, some e) => (d2, some e)
    | (d2, none) =>
      ({ d2 with local_bin_changes := d2.local_bin_changes ++ [pb.2] }, none)
  else
    ({ d1 with
        local_changes := d1.local_changes ++ [change]
        in_flight_local_changes := d1.in_flight_local_changes ++ [change.seq] },
      none)

/-- One complete change block on the normal path: enter, body, exit
with no exception information (Python passes None, None, None). -/
def runTxn (truthy : St → Bool) (backendFn : Change Op → Patch Diffs × Bin)
    (merge : St → Diffs → St) (body : St → St) (ops : List Op) (d : Doc St Op Bin) :
    Doc St Op Bin × Option Err :=
  doc_exit backendFn merge none (apply_body body (doc_enter truthy d)) ops

/-- The with-statement semantics around a change block whose body
raised the exception exc (none on the normal path): enter, the body
effect recorded so far, then exit with the exception information.
Doc exit falls off its end returning None, which Python treats as
falsy, so the body exception is never suppressed; it is returned as
the third component, still pending after the exit. -/
def withStmt (truthy : St → Bool) (backendFn : Change Op → Patch Diffs × Bin)
    (merge : St → Diffs → St) (exc : Option String) (body : St → St) (ops : List Op)
    (d : Doc St Op Bin) : Doc St Op Bin × Option Err × Option String :=
  match doc_exit backendFn merge exc (apply_body body (doc_enter truthy d)) ops with
  | (d', err) => (d', err, exc)

/-- Sequential execution of a list of change blocks, each given by its
body effect and recorded operation list. -/
def runTxns (truthy : St → Bool) (backendFn : Change Op → Patch Diffs × Bin)
    (merge : St → Diffs → St) :
    List ((St → St) × List Op) → Doc St Op Bin → Doc St Op Bin × Option Err
  | [], d => (d, none)
  | t :: ts, d =>
    andThen (runTxn truthy backendFn merge t.1 t.2 d) (runTxns truthy backendFn merge ts)

/-- An external event hitting the controller: a completed change block,
or an inbound patch. -/
inductive Event (St Op Diffs : Type) where
  | txn (body : St → St) (ops : List Op)
  | patch (p : Patch Diffs)

/-- Interleaved execution of change blocks and patch applications;
an exception stops the run with the state at the raise. -/
def runEvents (truthy : St → Bool) (backendFn : Change Op → Patch Diffs × Bin)
    (merge : St → Diffs → St) :
    List (Event St Op Diffs) → Doc St Op Bin → Doc St Op Bin × Option Err
  | [], d => (d, none)
  | .txn b ops :: evs, d =>
    andThen (runTxn truthy backendFn merge b ops d) (runEvents truthy backendFn merge evs)
  | .patch p :: evs, d =>
    andThen (apply_patch merge d p) (runEvents truthy backendFn merge evs)

/-- A freshly constructed split-mode controller (doc.py lines 14-57
with no backend and no initial data): empty outboxes, empty in-flight
queue, no fork, counters at zero, the given empty root map. -/
def init_doc (actor : String) (empty : St) : Doc St Op Bin :=
  { backend := false, local_bin_changes := [], local_changes := [],
    in_flight_local_changes := [], optimistic_root_obj := none,
    actor_id := actor, seq := 0, max_op := 0, root_obj := empty }

/-- Base state the body of a change block works on, after entering:
the pre-existing truthy fork, otherwise a fresh copy of canonical
state (doc.py lines 139-143). -/
def fork_base (truthy : St → Bool) (d : Doc St Op Bin) : St :=
  match d.optimistic_root_obj with
  | some f => if truthy f then f else d.root_obj
  | none => d.root_obj

/-- Change record one commit on the controller state d builds
(doc.py lines 149-158). -/
def txn_change (ops : List Op) (d : Doc St Op Bin) : Change Op :=
  { actor := d.actor_id, seq := d.seq + 1, startOp := d.max_op + 1, deps := [],
    ops := ops, time := 12345, message := "" }

/-- Closed form of the controller state after one split-mode change
block, proved equal to runTxn below. -/
def txn_result (truthy : St → Bool) (body : St → St) (ops : List Op) (d : Doc St Op Bin) :
    Doc St Op Bin :=
  { d with
      optimistic_root_obj := some (body (fork_base truthy d))
      seq := d.seq + 1
      max_op := d.max_op + ops.length
      local_changes := d.local_changes ++ [txn_change ops d]
      in_flight_local_changes := d.in_flight_local_changes ++ [d.seq + 1] }

/-- The list a, a+1, ..., a+n-1 of n consecutive sequence numbers. -/
def seqsFrom (a : Nat) : Nat → List Nat
  | 0 => []
  | n + 1 => a :: seqsFrom (a + 1) n

/-- Closed form of the change records a list of commits appends to the
outbox, given the counters before the first of them. -/
def mkChanges (actor : String) (seq0 maxOp0 : Nat) : List (List Op) → List (Change Op)
  | [] => []
  | ops :: rest =>
    { actor := actor, seq := seq0 + 1, startOp := maxOp0 + 1, deps := [], ops := ops,
      time := 12345, message := "" } :: mkChanges actor (seq0 + 1) (maxOp0 + ops.length) rest

/-- Concrete instantiation used by the witnesses: document states,
operations, encoded changes and diff trees are all natural numbers and
the canonical-merge collaborator is addition. -/
def msum : Nat → Nat → Nat := fun s diff => s + diff

/-- Concrete truthiness for natural-number document states: nonzero,
like the length test Python uses for containers. -/
def truthyNat : Nat → Bool := fun n => decide (n ≠ 0)

/-- Concrete integrated backend used by the witnesses: echoes the
change as a patch carrying the change's actor and seq. -/
def backendEcho : Change Nat → Patch Nat × Nat :=
  fun c => ({ actorId := some c.actor, seq := some c.seq, maxOp := c.startOp + c.ops.length,
              clock := [(c.actor, c.seq)], diffs := 1 }, 99)

/-- Concrete split-mode controller with one local change in flight:
fork present, queue holding seq 1. -/
def docA : Doc Nat Nat Nat :=
  { backend := false, local_bin_changes := [], local_changes := [],
    in_flight_local_changes := [1], optimistic_root_obj := some 7,
    actor_id := "a", seq := 1, max_op := 3, root_obj := 10 }

/-- Concrete integrated-mode controller, as Doc init leaves it when a
backend object is passed and no initial data is given. -/
def docB : Doc Nat Nat Nat :=
  { backend := true, local_bin_changes := [], local_changes := [],
    in_flight_local_changes := [], optimistic_root_obj := none,
    actor_id := "a", seq := 0, max_op := 0, root_obj := 0 }

/-! Reduction lemmas for the sequencing combinator. -/

@[simp]
theorem andThen_ok (d : Doc St Op Bin) (f : Doc St Op Bin → Doc St Op Bin × Option Err) :
    andThen (d, none) f = f d := rfl

@[simp]
theorem andThen_err (d : Doc St Op Bin) (e : Err)
    (f : Doc St Op Bin → Doc St Op Bin × Option Err) :
    andThen (d, some e) f = (d, some e) := rfl

/-! Field lemmas for the two counter updates of apply_patch. -/

@[simp]
theorem bump_max_op_backend (d : Doc St Op Bin) (p : Patch Diffs) :
    (bump_max_op d p).backend = d.backend := by
  unfold bump_max_op; split <;> rfl

@[simp]
theorem bump_max_op_seq (d : Doc St Op Bin) (p : Patch Diffs) :
    (bump_max_op d p).seq = d.seq := by
  unfold bump_max_op; split <;> rfl

@[simp]
theorem bump_max_op_actor (d : Doc St Op Bin) (p : Patch Diffs) :
    (bump_max_op d p).actor_id = d.actor_id := by
  unfold bump_max_op; split <;> rfl

@[simp]
theorem bump_max_op_root (d : Doc St Op Bin) (p : Patch Diffs) :
    (bump_max_op d p).root_obj = d.root_obj := by
  unfold bump_max_op; split <;> rfl

@[simp]
theorem bump_max_op_fork (d : Doc St Op Bin) (p : Patch Diffs) :
    (bump_max_op d p).optimistic_root_obj = d.optimistic_root_obj := by
  unfold bump_max_op; split <;> rfl

@[simp]
theorem bump_max_op_queue (d : Doc St Op Bin) (p : Patch Diffs) :
    (bump_max_op d p).in_flight_local_changes = d.in_flight_local_changes := by
  unfold bump_max_op; split <;> rfl

@[simp]
theorem bump_max_op_lc (d : Doc St Op Bin) (p : Patch Diffs) :
    (bump_max_op d p).local_changes = d.local_changes := by
  unfold bump_max_op; split <;> rfl

@[simp]
theorem bump_max_op_lbc (d : Doc St Op Bin) (p : Patch Diffs) :
    (bump_max_op d p).local_bin_changes = d.local_bin_changes := by
  unfold bump_max_op; split <;> rfl

@[simp]
theorem bump_max_op_max_op (d : Doc St Op Bin) (p : Patch Diffs) :
    (bump_max_op d p).max_op =
      if d.optimistic_root_obj.isNone then p.maxOp else d.max_op := by
  unfold bump_max_op; split <;> simp_all

@[simp]
theorem bump_seq_backend (d : Doc St Op Bin) (p : Patch Diffs) :
    (bump_seq d p).backend = d.backend := by
  unfold bump_seq; split <;> first | rfl | (split <;> rfl)

@[simp]
theorem bump_seq_max_op (d : Doc St Op Bin) (p : Patch Diffs) :
    (bump_seq d p).max_op = d.max_op := by
  unfold bump_seq; split <;> first | rfl | (split <;> rfl)

@[simp]
theorem bump_seq_actor (d : Doc St Op Bin) (p : Patch Diffs) :
    (bump_seq d p).actor_id = d.actor_id := by
  unfold bump_seq; split <;> first | rfl | (split <;> rfl)

@[simp]
theorem bump_seq_root (d : Doc St Op Bin) (p : Patch Diffs) :
    (bump_seq d p).root_obj = d.root_obj := by
  unfold bump_seq; split <;> first | rfl | (split <;> rfl)

@[simp]
theorem bump_seq_fork (d : Doc St Op Bin) (p : Patch Diffs) :
    (bump_seq d p).optimistic_root_obj = d.optimistic_root_obj := by
  unfold bump_seq; split <;> first | rfl | (split <;> rfl)

@[simp]
theorem bump_seq_queue (d : Doc St Op Bin) (p : Patch Diffs) :
    (bump_seq d p).in_flight_local_changes = d.in_flight_local_changes := by
  unfold bump_seq; split <;> first | rfl | (split <;> rfl)

@[simp]
theorem bump_seq_lc (d : Doc St Op Bin) (p : Patch Diffs) :
    (bump_seq d p).local_changes = d.local_changes := by
  unfold bump_seq; split <;> first | rfl | (split <;> rfl)

@[simp]
theorem bump_seq_lbc (d : Doc St Op Bin) (p : Patch Diffs) :
    (bump_seq d p).local_bin_changes = d.local_bin_changes := by
  unfold bump_seq; split <;> first | rfl | (split <;> rfl)

theorem bump_seq_seq (d : Doc St Op Bin) (p : Patch Diffs) :
    (bump_seq d p).seq =
      match clockLookup p.clock d.actor_id with
      | some cs => if d.seq < cs then cs else d.seq
      | none => d.seq := by
  unfold bump_seq
  rcases clockLookup p.clock d.actor_id with _ | cs
  · rfl
  · by_cases h : d.seq < cs <;> simp [h]

theorem bump_seq_seq_le (d : Doc St Op Bin) (p : Patch Diffs) :
    d.seq ≤ (bump_seq d p).seq := by
  rw [bump_seq_seq]
  rcases clockLookup p.clock d.actor_id with _ | cs
  · exact Nat.le_refl _
  · by_cases h : d.seq < cs <;> simp [h]
    exact Nat.le_of_lt h

/-! Field lemmas for tail_result. -/

theorem tail_result_root (merge : St → Diffs → St) (d : Doc St Op Bin) (p : Patch Diffs) :
    (tail_result merge d p).root_obj = merge d.root_obj p.diffs := by
  unfold tail_result; simp

@[simp]
theorem tail_result_backend (merge : St → Diffs → St) (d : Doc St Op Bin) (p : Patch Diffs) :
    (tail_result merge d p).backend = d.backend := by
  unfold tail_result; simp

@[simp]
theorem tail_result_actor (merge : St → Diffs → St) (d : Doc St Op Bin) (p : Patch Diffs) :
    (tail_result merge d p).actor_id = d.actor_id := by
  unfold tail_result; simp

@[simp]
theorem tail_result_fork (merge : St → Diffs → St) (d : Doc St Op Bin) (p : Patch Diffs) :
    (tail_result merge d p).optimistic_root_obj = d.optimistic_root_obj := by
  unfold tail_result; simp

@[simp]
theorem tail_result_queue (merge : St → Diffs → St) (d : Doc St Op Bin) (p : Patch Diffs) :
    (tail_result merge d p).in_flight_local_changes = d.in_flight_local_changes := by
  unfold tail_result; simp

@[simp]
theorem tail_result_lc (merge : St → Diffs → St) (d : Doc St Op Bin) (p : Patch Diffs) :
    (tail_result merge d p).local_changes = d.local_changes := by
  unfold tail_result; simp

@[simp]
theorem tail_result_lbc (merge : St → Diffs → St) (d : Doc St Op Bin) (p : Patch Diffs) :
    (tail_result merge d p).local_bin_changes = d.local_bin_changes := by
  unfold tail_result; simp

theorem tail_result_max_op (merge : St → Diffs → St) (d : Doc St Op Bin) (p : Patch Diffs) :
    (tail_result merge d p).max_op =
      if d.optimistic_root_obj.isNone then p.maxOp else d.max_op := by
  unfold tail_result; simp

theorem tail_result_seq (merge : St → Diffs → St) (d : Doc St Op Bin) (p : Patch Diffs) :
    (tail_result merge d p).seq =
      match clockLookup p.clock d.actor_id with
      | some cs => if d.seq < cs then cs else d.seq
      | none => d.seq := by
  unfold tail_result
  have h := bump_seq_seq (bump_max_op d p) p
  simp only [bump_max_op_seq, bump_max_op_actor] at h
  simpa using h

theorem tail_result_seq_le (merge : St → Diffs → St) (d : Doc St Op Bin) (p : Patch Diffs) :
    d.seq ≤ (tail_result merge d p).seq := by
  unfold tail_result
  have h := bump_seq_seq_le (bump_max_op d p) p
  simpa using h

theorem apply_patch_tail_ok (merge : St → Diffs → St) (d : Doc St Op Bin) (p : Patch Diffs)
    (d' : Doc St Op Bin) (h : apply_patch_tail merge d p = (d', none)) :
    d.backend = false ∧ d' = tail_result merge d p := by
  unfold apply_patch_tail at h
  split at h
  · simp at h
  · next hb =>
    refine ⟨by simpa using hb, ?_⟩
    have := congrArg Prod.fst h
    simpa using this.symm

theorem apply_patch_tail_split (merge : St → Diffs → St) (d : Doc St Op Bin) (p : Patch Diffs)
    (hb : d.backend = false) :
    apply_patch_tail merge d p = (tail_result merge d p, none) := by
  unfold apply_patch_tail
  simp [hb]

/-! Field lemmas for pop_and_maybe_retire. -/

@[simp]
theorem pop_backend (d : Doc St Op Bin) (rest : List Nat) :
    (pop_and_maybe_retire d rest).backend = d.backend := by
  unfold pop_and_maybe_retire; split <;> rfl

@[simp]
theorem pop_seq (d : Doc St Op Bin) (rest : List Nat) :
    (pop_and_maybe_retire d rest).seq = d.seq := by
  unfold pop_and_maybe_retire; split <;> rfl

@[simp]
theorem pop_max_op (d : Doc St Op Bin) (rest : List Nat) :
    (pop_and_maybe_retire d rest).max_op = d.max_op := by
  unfold pop_and_maybe_retire; split <;> rfl

@[simp]
theorem pop_actor (d : Doc St Op Bin) (rest : List Nat) :
    (pop_and_maybe_retire d rest).actor_id = d.actor_id := by
  unfold pop_and_maybe_retire; split <;> rfl

@[simp]
theorem pop_root (d : Doc St Op Bin) (rest : List Nat) :
    (pop_and_maybe_retire d rest).root_obj = d.root_obj := by
  unfold pop_and_maybe_retire; split <;> rfl

@[simp]
theorem pop_lc (d : Doc St Op Bin) (rest : List Nat) :
    (pop_and_maybe_retire d rest).local_changes = d.local_changes := by
  unfold pop_and_maybe_retire; split <;> rfl

@[simp]
theorem pop_lbc (d : Doc St Op Bin) (rest : List Nat) :
    (pop_and_maybe_retire d rest).local_bin_changes = d.local_bin_changes := by
  unfold pop_and_maybe_retire; split <;> rfl

@[simp]
theorem pop_queue (d : Doc St Op Bin) (rest : List Nat) :
    (pop_and_maybe_retire d rest).in_flight_local_changes = rest := by
  unfold pop_and_maybe_retire; split <;> rfl

theorem pop_fork (d : Doc St Op Bin) (rest : List Nat) :
    (pop_and_maybe_retire d rest).optimistic_root_obj =
      if rest.isEmpty then none else d.optimistic_root_obj := by
  unfold pop_and_maybe_retire; split <;> simp_all

/-! Reduction lemmas for apply_patch. -/

theorem apply_patch_no_match (merge : St → Diffs → St) (d : Doc St Op Bin) (p : Patch Diffs)
    (hm : ¬ p.actorId = some d.actor_id) :
    apply_patch merge d p = apply_patch_tail merge d p := by
  unfold apply_patch; simp [hm]

theorem apply_patch_match (merge : St → Diffs → St) (d : Doc St Op Bin) (p : Patch Diffs)
    (e : Nat) (t : List Nat) (hb : d.backend = false)
    (hq : d.in_flight_local_changes = e :: t) (ha : p.actorId = some d.actor_id)
    (hs : p.seq = some e) :
    apply_patch merge d p = (tail_result merge (pop_and_maybe_retire d t) p, none) := by
  unfold apply_patch
  rw [ha, hq, hs]
  simp [hb, apply_patch_tail]

theorem apply_patch_mismatch (merge : St → Diffs → St) (d : Doc St Op Bin) (p : Patch Diffs)
    (e s : Nat) (t : List Nat) (hb : d.backend = false)
    (hq : d.in_flight_local_changes = e :: t) (ha : p.actorId = some d.actor_id)
    (hs : p.seq = some s) (hne : s ≠ e) :
    apply_patch merge d p = (d, some (.outOfOrder e s)) := by
  unfold apply_patch
  rw [ha, hq, hs]
  simp [hb, hne]

theorem apply_patch_tail_seq_le (merge : St → Diffs → St) (d : Doc St Op Bin)
    (p : Patch Diffs) : d.seq ≤ (apply_patch_tail merge d p).1.seq := by
  unfold apply_patch_tail
  split
  · exact Nat.le_refl _
  · simpa using tail_result_seq_le merge d p

theorem apply_patch_tail_pop_seq_le (merge : St → Diffs → St) (d : Doc St Op Bin)
    (p : Patch Diffs) (t : List Nat) :
    d.seq ≤ (apply_patch_tail merge (pop_and_maybe_retire d t) p).1.seq := by
  have h := apply_patch_tail_seq_le merge (pop_and_maybe_retire d t) p
  simpa using h

theorem apply_patch_seq_le (merge : St → Diffs → St) (d : Doc St Op Bin) (p : Patch Diffs) :
    d.seq ≤ (apply_patch merge d p).1.seq := by
  unfold apply_patch
  repeat' split
  all_goals first
    | exact Nat.le_refl _
    | exact apply_patch_tail_seq_le merge d p
    | exact apply_patch_tail_pop_seq_le merge d p _

theorem apply_patches_seq_le (merge : St → Diffs → St) :
    ∀ (ps : List (Patch Diffs)) (d : Doc St Op Bin),
      d.seq ≤ (apply_patches merge ps d).1.seq
  | [], _ => Nat.le_refl _
  | p :: ps, d => by
    unfold apply_patches
    rcases h : apply_patch merge d p with ⟨d', err⟩
    have h1 : d.seq ≤ d'.seq := by
      have := apply_patch_seq_le merge d p
      rw [h] at this
      exact this
    cases err with
    | none =>
      rw [andThen_ok]
      exact Nat.le_trans h1 (apply_patches_seq_le merge ps d')
    | some e =>
      rw [andThen_err]
      exact h1

theorem apply_patch_ok_shape (merge : St → Diffs → St) (d : Doc St Op Bin) (p : Patch Diffs)
    (d' : Doc St Op Bin) (h : apply_patch merge d p = (d', none)) :
    ∃ dm : Doc St Op Bin,
      (dm = d ∨ ∃ e t, d.in_flight_local_changes = e :: t ∧ dm = pop_and_maybe_retire d t)
        ∧ dm.backend = false ∧ d' = tail_result merge dm p := by
  unfold apply_patch at h
  split at h
  · split at h
    · simp at h
    · split at h
      · simp at h
      · next e t heq =>
        split at h
        · simp at h
        · split at h
          · obtain ⟨hb2, hd⟩ := apply_patch_tail_ok _ _ _ _ h
            exact ⟨pop_and_maybe_retire d t, Or.inr ⟨e, t, heq, rfl⟩, hb2, hd⟩
          · simp at h
  · obtain ⟨hb2, hd⟩ := apply_patch_tail_ok _ _ _ _ h
    exact ⟨d, Or.inl rfl, hb2, hd⟩

/-! The split-mode change block in closed form. -/

theorem runTxn_split (truthy : St → Bool) (backendFn : Change Op → Patch Diffs × Bin)
    (merge : St → Diffs → St) (body : St → St) (ops : List Op) (d : Doc St Op Bin)
    (hb : d.backend = false) :
    runTxn truthy backendFn merge body ops d = (txn_result truthy body ops d, none) := by
  obtain ⟨bk, lbc, lc, ifl, fork, aid, sq, mo, ro⟩ := d
  simp only at hb
  subst hb
  cases fork with
  | none =>
    simp [runTxn, doc_enter, apply_body, doc_exit, txn_result, fork_base, txn_change]
  | some f =>
    by_cases hf : truthy f <;>
      simp [runTxn, doc_enter, apply_body, doc_exit, txn_result, fork_base, txn_change, hf]

theorem get_active_no_fork (truthy : St → Bool) (d : Doc St Op Bin)
    (h : d.optimistic_root_obj = none) :
    get_active_root_obj truthy d = d.root_obj := by
  unfold get_active_root_obj
  rcases hb : d.backend <;> simp [h, hb]

/-! Preservation of the fork-iff-queue invariant. -/

theorem apply_patch_inv (merge : St → Diffs → St) (d : Doc St Op Bin) (p : Patch Diffs)
    (d' : Doc St Op Bin) (h : apply_patch merge d p = (d', none))
    (hi : (d.optimistic_root_obj).isSome ↔ d.in_flight_local_changes ≠ []) :
    d'.backend = d.backend
      ∧ ((d'.optimistic_root_obj).isSome ↔ d'.in_flight_local_changes ≠ []) := by
  obtain ⟨dm, hdm, hbm, hd'⟩ := apply_patch_ok_shape merge d p d' h
  subst hd'
  rcases hdm with rfl | ⟨e, t, heq, rfl⟩
  · exact ⟨by simp, by simpa using hi⟩
  · refine ⟨by simp, ?_⟩
    simp only [tail_result_fork, tail_result_queue, pop_fork, pop_queue]
    rcases t with _ | ⟨x, xs⟩
    · simp
    · have hsome : (d.optimistic_root_obj).isSome := hi.mpr (by simp [heq])
      simp [hsome]

theorem runTxn_inv (truthy : St → Bool) (backendFn : Change Op → Patch Diffs × Bin)
    (merge : St → Diffs → St) (body : St → St) (ops : List Op) (d : Doc St Op Bin)
    (hb : d.backend = false) :
    (runTxn truthy backendFn merge body ops d).2 = none
      ∧ (runTxn truthy backendFn merge body ops d).1.backend = false
      ∧ (((runTxn truthy backendFn merge body ops d).1.optimistic_root_obj).isSome
          ↔ (runTxn truthy backendFn merge body ops d).1.in_flight_local_changes ≠ []) := by
  rw [runTxn_split truthy backendFn merge body ops d hb]
  refine ⟨rfl, by simp [txn_result, hb], ?_⟩
  simp [txn_result]

theorem runEvents_inv (truthy : St → Bool) (backendFn : Change Op → Patch Diffs × Bin)
    (merge : St → Diffs → St) :
    ∀ (evs : List (Event St Op Diffs)) (d : Doc St Op Bin), d.backend = false →
      ((d.optimistic_root_obj).isSome ↔ d.in_flight_local_changes ≠ []) →
      (runEvents truthy backendFn merge evs d).2 = none →
      (runEvents truthy backendFn merge evs d).1.backend = false
        ∧ (((runEvents truthy backendFn merge evs d).1.optimistic_root_obj).isSome
            ↔ (runEvents truthy backendFn merge evs d).1.in_flight_local_changes ≠ [])
  | [], d, hb, hi, _ => by
    constructor
    · simpa [runEvents] using hb
    · simpa [runEvents] using hi
  | .txn b ops :: evs, d, hb, hi, hok => by
    obtain ⟨h1, h2, h3⟩ := runTxn_inv truthy backendFn merge b ops d hb
    rcases hr : runTxn truthy backendFn merge b ops d with ⟨d1, err⟩
    rw [hr] at h1 h2 h3
    cases err with
    | some e => simp at h1
    | none =>
      unfold runEvents at hok ⊢
      rw [hr, andThen_ok] at hok ⊢
      exact runEvents_inv truthy backendFn merge evs d1 h2 h3 hok
  | .patch p :: evs, d, hb, hi, hok => by
    rcases hr : apply_patch merge d p with ⟨d1, err⟩
    unfold runEvents at hok ⊢
    rw [hr] at hok ⊢
    cases err with
    | some e =>
      rw [andThen_err] at hok
      simp at hok
    | none =>
      rw [andThen_ok] at hok ⊢
      obtain ⟨hb1, hi1⟩ := apply_patch_inv merge d p d1 hr hi
      exact runEvents_inv truthy backendFn merge evs d1 (hb1.trans hb) hi1 hok

/-! Closed form for a run of split-mode change blocks. -/

theorem runTxns_split (truthy : St → Bool) (backendFn : Change Op → Patch Diffs × Bin)
    (merge : St → Diffs → St) :
    ∀ (txns : List ((St → St) × List Op)) (d : Doc St Op Bin), d.backend = false →
      (runTxns truthy backendFn merge txns d).2 = none
      ∧ (runTxns truthy backendFn merge txns d).1.backend = false
      ∧ (runTxns truthy backendFn merge txns d).1.actor_id = d.actor_id
      ∧ (runTxns truthy backendFn merge txns d).1.seq = d.seq + txns.length
      ∧ (runTxns truthy backendFn merge txns d).1.max_op
          = d.max_op + (List.map (fun t => t.2.length) txns).sum
      ∧ (runTxns truthy backendFn merge txns d).1.local_changes
          = d.local_changes
              ++ mkChanges d.actor_id d.seq d.max_op (List.map (fun t => t.2) txns)
      ∧ (runTxns truthy backendFn merge txns d).1.in_flight_local_changes
          = d.in_flight_local_changes ++ seqsFrom (d.seq + 1) txns.length
      ∧ (txns = [] → (runTxns truthy backendFn merge txns d).1.optimistic_root_obj
            = d.optimistic_root_obj)
      ∧ (txns ≠ [] →
          ((runTxns truthy backendFn merge txns d).1.optimistic_root_obj).isSome)
  | [], d, hb => by
    refine ⟨rfl, hb, rfl, rfl, by simp [runTxns], by simp [runTxns, mkChanges],
      by simp [runTxns, seqsFrom], fun _ => rfl, fun hne => absurd rfl hne⟩
  | (bd, ops) :: ts, d, hb => by
    have hstep := runTxn_split truthy backendFn merge bd ops d hb
    have hb1 : (txn_result truthy bd ops d).backend = false := by simp [txn_result, hb]
    obtain ⟨ih0, ih1, ih2, ih3, ih4, ih5, ih6, ih7, ih8⟩ :=
      runTxns_split truthy backendFn merge ts (txn_result truthy bd ops d) hb1
    unfold runTxns
    rw [hstep, andThen_ok]
    refine ⟨ih0, ih1, ?_, ?_, ?_, ?_, ?_, ?_, ?_⟩
    · rw [ih2]; simp [txn_result]
    · rw [ih3]; simp [txn_result]; omega
    · rw [ih4]; simp [txn_result]; omega
    · rw [ih5]
      simp only [txn_result, List.map_cons]
      rw [mkChanges]
      simp [txn_change, List.append_assoc]
    · rw [ih6]
      simp only [txn_result, List.length_cons]
      rw [seqsFrom]
      simp [List.append_assoc]
    · intro hne
      exact absurd hne (by simp)
    · intro _
      rcases ts with _ | ⟨t1, ts'⟩
      · rw [ih7 rfl]
        simp [txn_result]
      · exact ih8 (by simp)

/-! Claim theorems. -/

/-- C1: in a state with a non-empty in-flight queue (such states are
split-mode states, as only Doc init without a backend creates the
queue, hence the backend = false hypothesis), applying a patch whose
actorId equals this controller's actor id and whose seq is present but
different from the queue head raises the out-of-order
(OrderingViolation) exception, and the controller afterwards is
exactly the controller before the call: in-flight queue, fork, seq,
max_op and canonical state are all untouched. -/
theorem c1_out_of_order_patch_is_atomic (merge : St → Diffs → St) (d : Doc St Op Bin)
    (p : Patch Diffs) (e s : Nat) (t : List Nat) (hb : d.backend = false)
    (hq : d.in_flight_local_changes = e :: t) (ha : p.actorId = some d.actor_id)
    (hs : p.seq = some s) (hne : s ≠ e) :
    apply_patch merge d p = (d, some (.outOfOrder e s)) :=
  apply_patch_mismatch merge d p e s t hb hq ha hs hne

/-- Witness for C1: the scenario of the design notes, queue holding
seq 1 and an echo patch carrying seq 2. -/
theorem c1_witness :
    (docA.backend = false ∧ docA.in_flight_local_changes = 1 :: []
        ∧ (Patch.mk (some "a") (some 2) 5 [] (0 : Nat)).actorId = some docA.actor_id
        ∧ (Patch.mk (some "a") (some 2) 5 [] (0 : Nat)).seq = some 2 ∧ 2 ≠ 1)
    ∧ apply_patch msum docA (Patch.mk (some "a") (some 2) 5 [] 0)
        = (docA, some (.outOfOrder 1 2)) :=
  ⟨⟨rfl, rfl, rfl, rfl, by decide⟩,
    c1_out_of_order_patch_is_atomic msum docA _ 1 2 [] rfl rfl rfl rfl (by decide)⟩

/-- C2: in a split-mode state whose in-flight queue is non-empty,
applying a patch with actorId equal to this controller's actor id and
seq equal to the queue head succeeds and pops exactly one entry; if
the queue thereby becomes empty, the fork becomes absent, max_op is
set to the patch's maxOp, and the read surface (lookup, iteration and
length all delegate to get_active_root_obj) resolves to canonical
state; canonical state becomes the merge of the old canonical state
with the patch diffs, and seq rises to the clock entry for this actor
exactly when that entry is strictly greater. -/
theorem c2_matching_patch_pops_and_retires (truthy : St → Bool) (merge : St → Diffs → St)
    (d : Doc St Op Bin) (p : Patch Diffs) (e : Nat) (t : List Nat)
    (hb : d.backend = false) (hq : d.in_flight_local_changes = e :: t)
    (ha : p.actorId = some d.actor_id) (hs : p.seq = some e) :
    (apply_patch merge d p).2 = none
    ∧ (apply_patch merge d p).1.in_flight_local_changes = t
    ∧ (t = [] → (apply_patch merge d p).1.optimistic_root_obj = none
        ∧ (apply_patch merge d p).1.max_op = p.maxOp
        ∧ get_active_root_obj truthy (apply_patch merge d p).1
            = (apply_patch merge d p).1.root_obj)
    ∧ (apply_patch merge d p).1.root_obj = merge d.root_obj p.diffs
    ∧ (apply_patch merge d p).1.seq
        = (match clockLookup p.clock d.actor_id with
            | some cs => if d.seq < cs then cs else d.seq
            | none => d.seq) := by
  rw [apply_patch_match merge d p e t hb hq ha hs]
  refine ⟨rfl, by simp, ?_, ?_, ?_⟩
  · intro ht
    subst ht
    have hfork :
        (tail_result merge (pop_and_maybe_retire d []) p).optimistic_root_obj = none := by
      simp [pop_fork]
    refine ⟨hfork, ?_, get_active_no_fork truthy _ hfork⟩
    rw [tail_result_max_op]
    simp [pop_fork]
  · rw [tail_result_root]; simp
  · rw [tail_result_seq]; simp

/-- Witness for C2: the scenario of the design notes, queue holding
seq 1, echo patch with seq 1, maxOp 5 and clock mapping this actor to
1; afterwards the queue is empty, the fork absent, seq still 1, max_op
5, the active view is canonical state, and canonical state is the
merge of the old canonical state with the diffs. -/
theorem c2_witness :
    (docA.backend = false ∧ docA.in_flight_local_changes = 1 :: []
        ∧ (Patch.mk (some "a") (some 1) 5 [("a", 1)] (4 : Nat)).actorId = some docA.actor_id
        ∧ (Patch.mk (some "a") (some 1) 5 [("a", 1)] (4 : Nat)).seq = some 1)
    ∧ (apply_patch msum docA (Patch.mk (some "a") (some 1) 5 [("a", 1)] 4)).2 = none
    ∧ (apply_patch msum docA
        (Patch.mk (some "a") (some 1) 5 [("a", 1)] 4)).1.in_flight_local_changes = []
    ∧ (apply_patch msum docA
        (Patch.mk (some "a") (some 1) 5 [("a", 1)] 4)).1.optimistic_root_obj = none
    ∧ (apply_patch msum docA (Patch.mk (some "a") (some 1) 5 [("a", 1)] 4)).1.max_op = 5
    ∧ get_active_root_obj truthyNat
          (apply_patch msum docA (Patch.mk (some "a") (some 1) 5 [("a", 1)] 4)).1
        = (apply_patch msum docA (Patch.mk (some "a") (some 1) 5 [("a", 1)] 4)).1.root_obj
    ∧ (apply_patch msum docA (Patch.mk (some "a") (some 1) 5 [("a", 1)] 4)).1.root_obj
        = msum docA.root_obj 4
    ∧ (apply_patch msum docA (Patch.mk (some "a") (some 1) 5 [("a", 1)] 4)).1.seq = 1 :=
  ⟨⟨rfl, rfl, rfl, rfl⟩,
    (c2_matching_patch_pops_and_retires truthyNat msum docA _ 1 [] rfl rfl rfl rfl).1,
    (c2_matching_patch_pops_and_retires truthyNat msum docA _ 1 [] rfl rfl rfl rfl).2.1,
    ((c2_matching_patch_pops_and_retires truthyNat msum docA _ 1 [] rfl rfl rfl rfl).2.2.1
      rfl).1,
    ((c2_matching_patch_pops_and_retires truthyNat msum docA _ 1 [] rfl rfl rfl rfl).2.2.1
      rfl).2.1,
    ((c2_matching_patch_pops_and_retires truthyNat msum docA _ 1 [] rfl rfl rfl rfl).2.2.1
      rfl).2.2,
    (c2_matching_patch_pops_and_retires truthyNat msum docA _ 1 [] rfl rfl rfl rfl).2.2.2.1,
    by
      rw [(c2_matching_patch_pops_and_retires truthyNat msum docA
        (Patch.mk (some "a") (some 1) 5 [("a", 1)] 4) 1 [] rfl rfl rfl rfl).2.2.2.2]
      decide⟩

/-- C3 counterexample: a patch with no identity match (actorId
absent), applied successfully to a split-mode controller holding a
live fork, leaves the fork in place and does not adopt the patch's
maxOp — contradicting the claim that every such patch retires the
fork and adopts patch.maxOp. -/
theorem c3_counterexample :
    (Patch.mk (none : Option String) none 99 [] (4 : Nat)).actorId ≠ some docA.actor_id
    ∧ docA.optimistic_root_obj ≠ none
    ∧ (apply_patch msum docA (Patch.mk none none 99 [] 4)).2 = none
    ∧ (apply_patch msum docA (Patch.mk none none 99 [] 4)).1.optimistic_root_obj = some 7
    ∧ (apply_patch msum docA (Patch.mk none none 99 [] 4)).1.max_op = 3
    ∧ (3 : Nat) ≠ 99 := by decide

/-- C3 as amended: for every successfully applied split-mode patch
with no patch-identity match (actorId absent from the patch or
different from this controller's actor id), the fork is left exactly
in place — never retired — and patch.maxOp is adopted as the new
max_op precisely when the fork is absent; when a fork is present
(pending local transactions unechoed), max_op is left untouched. -/
theorem c3_amended_no_match_keeps_fork (merge : St → Diffs → St) (d : Doc St Op Bin)
    (p : Patch Diffs) (hb : d.backend = false) (hm : ¬ p.actorId = some d.actor_id) :
    (apply_patch merge d p).2 = none
    ∧ (apply_patch merge d p).1.optimistic_root_obj = d.optimistic_root_obj
    ∧ (apply_patch merge d p).1.max_op
        = (if d.optimistic_root_obj.isNone then p.maxOp else d.max_op) := by
  rw [apply_patch_no_match merge d p hm, apply_patch_tail_split merge d p hb]
  exact ⟨rfl, by simp, tail_result_max_op merge d p⟩

/-- Witness for the amended C3: a patch from another actor applied to
a split-mode controller with a live fork keeps the fork and the old
max_op. -/
theorem c3_witness :
    (docA.backend = false
        ∧ ¬ (Patch.mk (some "b") none 42 [] (4 : Nat)).actorId = some docA.actor_id)
    ∧ (apply_patch msum docA (Patch.mk (some "b") none 42 [] 4)).2 = none
    ∧ (apply_patch msum docA (Patch.mk (some "b") none 42 [] 4)).1.optimistic_root_obj
        = docA.optimistic_root_obj
    ∧ (apply_patch msum docA (Patch.mk (some "b") none 42 [] 4)).1.max_op
        = (if docA.optimistic_root_obj.isNone then 42 else docA.max_op) :=
  ⟨⟨rfl, by decide⟩,
    (c3_amended_no_match_keeps_fork msum docA _ rfl (by decide)).1,
    (c3_amended_no_match_keeps_fork msum docA _ rfl (by decide)).2.1,
    (c3_amended_no_match_keeps_fork msum docA _ rfl (by decide)).2.2⟩

/-- C4: the code contradicts the claim that an integrated-backend
commit applies the returned patch and completes without error. With a
backend present, apply_patch reads the attributes
in_flight_local_changes and optimistic_root_obj, which Doc init never
created in that mode, so every integrated-mode commit raises
AttributeError inside apply_patch after calling the backend, and the
encoded change is never appended to the outbox. Here: a fresh
integrated controller, one change block recording one op, the backend
echoing the change as a patch with the controller's own actorId. -/
theorem c4_integrated_commit_raises :
    (runTxn truthyNat backendEcho msum (fun s => s + 1) [1] docB).2
        = some (.attributeError "in_flight_local_changes")
    ∧ (runTxn truthyNat backendEcho msum (fun s => s + 1) [1] docB).1.local_bin_changes
        = [] := by decide

/-- C5: over any sequence of committed split-mode change blocks, each
commit increments seq by exactly one, builds a change record with
startOp = max_op + 1 and the ops the recording context collected, and
advances max_op by exactly that block's op count, in commit order:
after the whole sequence the run has succeeded, seq has grown by the
number of blocks, max_op by the total op count, and the outbox has
gained exactly the change records mkChanges gives in closed form
(the k-th carrying seq = seq0 + k and startOp = one past the
cumulative max_op). -/
theorem c5_commit_counters (truthy : St → Bool)
    (backendFn : Change Op → Patch Diffs × Bin) (merge : St → Diffs → St)
    (txns : List ((St → St) × List Op)) (d : Doc St Op Bin) (hb : d.backend = false) :
    (runTxns truthy backendFn merge txns d).2 = none
    ∧ (runTxns truthy backendFn merge txns d).1.seq = d.seq + txns.length
    ∧ (runTxns truthy backendFn merge txns d).1.max_op
        = d.max_op + (List.map (fun t => t.2.length) txns).sum
    ∧ (runTxns truthy backendFn merge txns d).1.local_changes
        = d.local_changes
            ++ mkChanges d.actor_id d.seq d.max_op (List.map (fun t => t.2) txns) := by
  obtain ⟨h0, _, _, h3, h4, h5, _, _, _⟩ := runTxns_split truthy backendFn merge txns d hb
  exact ⟨h0, h3, h4, h5⟩

/-- Witness for C5: two change blocks on a fresh split-mode
controller, recording two ops and then one op. -/
theorem c5_witness :
    ((init_doc "a" 0 : Doc Nat Nat Nat).backend = false)
    ∧ (runTxns truthyNat backendEcho msum [(fun s => s, [10, 11]), (fun s => s, [12])]
        (init_doc "a" 0)).2 = none
    ∧ (runTxns truthyNat backendEcho msum [(fun s => s, [10, 11]), (fun s => s, [12])]
        (init_doc "a" 0)).1.seq = (init_doc "a" 0 : Doc Nat Nat Nat).seq + 2
    ∧ (runTxns truthyNat backendEcho msum [(fun s => s, [10, 11]), (fun s => s, [12])]
        (init_doc "a" 0)).1.max_op
        = (init_doc "a" 0 : Doc Nat Nat Nat).max_op
            + (List.map (fun t => t.2.length)
                [((fun s => s : Nat → Nat), [10, 11]), (fun s => s, [12])]).sum
    ∧ (runTxns truthyNat backendEcho msum [(fun s => s, [10, 11]), (fun s => s, [12])]
        (init_doc "a" 0)).1.local_changes
        = (init_doc "a" 0 : Doc Nat Nat Nat).local_changes
            ++ mkChanges "a" 0 0 [[10, 11], [12]] :=
  ⟨rfl,
    (c5_commit_counters truthyNat backendEcho msum _ (init_doc "a" 0) rfl).1,
    (c5_commit_counters truthyNat backendEcho msum _ (init_doc "a" 0) rfl).2.1,
    (c5_commit_counters truthyNat backendEcho msum _ (init_doc "a" 0) rfl).2.2.1,
    (c5_commit_counters truthyNat backendEcho msum _ (init_doc "a" 0) rfl).2.2.2⟩

/-- C6: starting from a fresh split-mode controller, the invariant
that the fork exists exactly when the in-flight queue is non-empty
holds in every state reached by any interleaving of completed change
blocks and successful patch applications; and after N change blocks
with no patches received, the run has succeeded, the queue holds
exactly the sequence numbers 1..N, and for N > 0 the single fork slot
is alive. -/
theorem c6_fork_iff_queue (truthy : St → Bool)
    (backendFn : Change Op → Patch Diffs × Bin) (merge : St → Diffs → St)
    (actor : String) (empty : St) :
    (∀ evs : List (Event St Op Diffs),
      (runEvents truthy backendFn merge evs (init_doc actor empty)).2 = none →
      (((runEvents truthy backendFn merge evs
            (init_doc actor empty)).1.optimistic_root_obj).isSome
        ↔ (runEvents truthy backendFn merge evs
            (init_doc actor empty)).1.in_flight_local_changes ≠ []))
    ∧ (∀ txns : List ((St → St) × List Op),
        (runTxns truthy backendFn merge txns (init_doc actor empty)).2 = none
        ∧ (runTxns truthy backendFn merge txns
              (init_doc actor empty)).1.in_flight_local_changes
            = seqsFrom 1 txns.length
        ∧ (txns ≠ [] →
            ((runTxns truthy backendFn merge txns
                (init_doc actor empty)).1.optimistic_root_obj).isSome)) := by
  constructor
  · intro evs hok
    exact (runEvents_inv truthy backendFn merge evs (init_doc actor empty) rfl
      (by simp [init_doc]) hok).2
  · intro txns
    obtain ⟨h0, _, _, _, _, _, h6, _, h8⟩ :=
      runTxns_split truthy backendFn merge txns (init_doc actor empty) rfl
    refine ⟨h0, ?_, h8⟩
    simpa [init_doc] using h6

/-- Witness for C6: one change block followed by the matching echo
patch, and separately two pure change blocks. -/
theorem c6_witness :
    ((runEvents truthyNat backendEcho msum
        [Event.txn (fun s => s) [5],
          Event.patch (Patch.mk (some "a") (some 1) 9 [("a", 1)] 2)]
        (init_doc "a" 0)).2 = none)
    ∧ (((runEvents truthyNat backendEcho msum
          [Event.txn (fun s => s) [5],
            Event.patch (Patch.mk (some "a") (some 1) 9 [("a", 1)] 2)]
          (init_doc "a" 0)).1.optimistic_root_obj).isSome
        ↔ (runEvents truthyNat backendEcho msum
            [Event.txn (fun s => s) [5],
              Event.patch (Patch.mk (some "a") (some 1) 9 [("a", 1)] 2)]
            (init_doc "a" 0)).1.in_flight_local_changes ≠ [])
    ∧ (runTxns truthyNat backendEcho msum [(fun s => s, [10]), (fun s => s, [11])]
        (init_doc "a" 0)).1.in_flight_local_changes = seqsFrom 1 2
    ∧ ((runTxns truthyNat backendEcho msum [(fun s => s, [10]), (fun s => s, [11])]
        (init_doc "a" 0)).1.optimistic_root_obj).isSome :=
  ⟨by decide,
    (c6_fork_iff_queue truthyNat backendEcho msum "a" 0).1 _ (by decide),
    ((c6_fork_iff_queue truthyNat backendEcho msum "a" 0).2 _).2.1,
    ((c6_fork_iff_queue truthyNat backendEcho msum "a" 0).2 _).2.2
      (List.cons_ne_nil _ _)⟩

/-- C7: a successfully applied patch raises seq — namely to the clock
entry of this actor — exactly when the patch clock contains this actor
with a value strictly greater than the current seq, and leaves seq
unchanged otherwise; consequently seq never decreases across any
sequence of patch applications. -/
theorem c7_seq_from_clock (merge : St → Diffs → St) :
    (∀ (d : Doc St Op Bin) (p : Patch Diffs), (apply_patch merge d p).2 = none →
      (((apply_patch merge d p).1.seq ≠ d.seq)
          ↔ ∃ cs, clockLookup p.clock d.actor_id = some cs ∧ d.seq < cs)
        ∧ (∀ cs, clockLookup p.clock d.actor_id = some cs → d.seq < cs →
            (apply_patch merge d p).1.seq = cs))
    ∧ (∀ (ps : List (Patch Diffs)) (d : Doc St Op Bin),
        d.seq ≤ (apply_patches merge ps d).1.seq) := by
  constructor
  · intro d p hok
    rcases hr : apply_patch merge d p with ⟨d', err⟩
    rw [hr] at hok
    simp only at hok
    subst hok
    obtain ⟨dm, hdm, _, hd'⟩ := apply_patch_ok_shape merge d p d' hr
    have heq : d'.seq = match clockLookup p.clock d.actor_id with
        | some cs => if d.seq < cs then cs else d.seq
        | none => d.seq := by
      rcases hdm with rfl | ⟨e, t, hq, rfl⟩
      · rw [hd', tail_result_seq]
      · rw [hd', tail_result_seq]; simp
    constructor
    · rw [heq]
      rcases hcl : clockLookup p.clock d.actor_id with _ | cs
      · simp
      · show (if d.seq < cs then cs else d.seq) ≠ d.seq
            ↔ ∃ x, some cs = some x ∧ d.seq < x
        by_cases hlt : d.seq < cs
        · rw [if_pos hlt]
          constructor
          · intro _
            exact ⟨cs, rfl, hlt⟩
          · intro _
            omega
        · rw [if_neg hlt]
          simp only [ne_eq, not_true_eq_false, false_iff, not_exists]
          rintro x ⟨hx, hlt'⟩
          cases Option.some.inj hx
          exact hlt hlt'
    · intro cs hcs hlt
      rw [heq, hcs]
      show (if d.seq < cs then cs else d.seq) = cs
      rw [if_pos hlt]
  · intro ps d
    exact apply_patches_seq_le merge ps d

/-- Witness for C7: a remote patch whose clock maps this actor to 5,
applied to a controller whose seq is 1, raises seq to 5; and seq is
monotone over that one-patch sequence. -/
theorem c7_witness :
    ((apply_patch msum docA (Patch.mk none none 0 [("a", 5)] (2 : Nat))).2 = none
        ∧ clockLookup (Patch.mk (none : Option String) none 0 [("a", 5)] (2 : Nat)).clock
            docA.actor_id = some 5
        ∧ docA.seq < 5)
    ∧ (apply_patch msum docA (Patch.mk none none 0 [("a", 5)] 2)).1.seq = 5
    ∧ docA.seq ≤ (apply_patches msum [Patch.mk none none 0 [("a", 5)] 2] docA).1.seq :=
  ⟨⟨by decide, by decide, by decide⟩,
    ((c7_seq_from_clock msum).1 docA _ (by decide)).2 5 (by decide) (by decide),
    (c7_seq_from_clock msum).2 _ docA⟩

/-- C8: a successfully applied patch replaces canonical state with the
merge of the old canonical state and the patch diffs, and the merge
step modifies nothing else: the actor id and both outboxes are
unchanged, and a fork still present after the call is exactly the
fork that was present before it. -/
theorem c8_merge_frame (merge : St → Diffs → St) (d : Doc St Op Bin) (p : Patch Diffs)
    (hok : (apply_patch merge d p).2 = none) :
    (apply_patch merge d p).1.root_obj = merge d.root_obj p.diffs
    ∧ (apply_patch merge d p).1.actor_id = d.actor_id
    ∧ (apply_patch merge d p).1.local_changes = d.local_changes
    ∧ (apply_patch merge d p).1.local_bin_changes = d.local_bin_changes
    ∧ (∀ f, (apply_patch merge d p).1.optimistic_root_obj = some f
        → d.optimistic_root_obj = some f) := by
  rcases hr : apply_patch merge d p with ⟨d', err⟩
  rw [hr] at hok
  simp only at hok
  subst hok
  obtain ⟨dm, hdm, _, hd'⟩ := apply_patch_ok_shape merge d p d' hr
  subst hd'
  rcases hdm with rfl | ⟨e, t, hq, rfl⟩
  · exact ⟨tail_result_root merge dm p, by simp, by simp, by simp,
      fun f hf => by simpa using hf⟩
  · refine ⟨?_, by simp, by simp, by simp, ?_⟩
    · rw [tail_result_root]; simp
    · intro f hf
      rw [tail_result_fork, pop_fork] at hf
      rcases t with _ | _
      · simp at hf
      · simpa using hf

/-- Witness for C8: a patch from another actor applied to a
controller with a live fork: canonical state becomes the merge, and
the fork afterwards is the fork from before. -/
theorem c8_witness :
    ((apply_patch msum docA (Patch.mk (some "b") none 0 [] (5 : Nat))).2 = none)
    ∧ (apply_patch msum docA (Patch.mk (some "b") none 0 [] 5)).1.root_obj
        = msum docA.root_obj 5
    ∧ docA.optimistic_root_obj = some 7 :=
  ⟨by decide,
    (c8_merge_frame msum docA (Patch.mk (some "b") none 0 [] 5) (by decide)).1,
    (c8_merge_frame msum docA (Patch.mk (some "b") none 0 [] 5) (by decide)).2.2.2.2 7
      (by decide)⟩

/-- C9: a write or delete performed directly on the document always
fails — the controller state is returned exactly unchanged — with the
error naming the attempted key, and the value for writes, in the
message strings doc.py formats. -/
theorem c9_direct_mutation_rejected (d : Doc St Op Bin) (key val : String) :
    setitem d key val = (d, some (.cannotAssign key val))
    ∧ delitem d key = (d, some (.cannotDelete key))
    ∧ (Err.cannotAssign key val).message
        = "Cannot assign directly on a document. Use a change block. (Tried assigning "
            ++ key ++ " to " ++ val ++ ")"
    ∧ (Err.cannotDelete key).message
        = "Cannot delete directly on a document. Use a change block. (Tried deleting "
            ++ key ++ ")" :=
  ⟨rfl, rfl, rfl, rfl⟩

/-- C10: transaction finalization ignores whether the body raised an
exception: the exit step's result is independent of the exception
information, and on a split-mode controller every exit path — the
error path included — commits in full, the state becoming exactly
txn_result (seq incremented by one, the change carrying the ops
recorded so far appended to the outbox, its seq pushed onto the
in-flight queue, max_op advanced by the op count), while the body's
exception is returned still pending: exit returns None, so it is
never suppressed. -/
theorem c10_exit_ignores_exception (truthy : St → Bool)
    (backendFn : Change Op → Patch Diffs × Bin) (merge : St → Diffs → St) :
    (∀ (e1 e2 : Option String) (d : Doc St Op Bin) (ops : List Op),
        doc_exit backendFn merge e1 d ops = doc_exit backendFn merge e2 d ops)
    ∧ (∀ (exc : Option String) (body : St → St) (ops : List Op) (d : Doc St Op Bin),
        d.backend = false →
        withStmt truthy backendFn merge exc body ops d
          = (txn_result truthy body ops d, none, exc)) := by
  constructor
  · intro e1 e2 d ops
    rfl
  · intro exc body ops d hb
    unfold withStmt
    have h : doc_exit backendFn merge exc (apply_body body (doc_enter truthy d)) ops
        = runTxn truthy backendFn merge body ops d := rfl
    rw [h, runTxn_split truthy backendFn merge body ops d hb]

/-- Witness for C10: a body that raised an exception still commits in
full on a split-mode controller, and the exception comes back
unsuppressed. -/
theorem c10_witness :
    (docA.backend = false)
    ∧ withStmt truthyNat backendEcho msum (some "boom") (fun s => s + 1) [2] docA
        = (txn_result truthyNat (fun s => s + 1) [2] docA, none, some "boom")
    ∧ doc_exit backendEcho msum (some "boom") docA [2]
        = doc_exit backendEcho msum none docA [2] :=
  ⟨rfl,
    (c10_exit_ignores_exception truthyNat backendEcho msum).2 (some "boom") _ [2] docA rfl,
    (c10_exit_ignores_exception truthyNat backendEcho msum).1 (some "boom") none docA [2]⟩

end Automerge
